import Mathlib

/-!
Shallow embedding of the broker connection core of this kgo package fork:
the pure decision logic of parseReadSize, writeRequest, handleReq (version
checking, reauth loop, produce dispatch), requestAPIVersions, doSasl and
readResponse is translated into executable Lean definitions.  Go machine
integers are modelled as Int (or Nat for raw bytes) with explicit
two-complement reduction where overflow matters.
-/

/-- Big-endian 32-bit value of four bytes, as binary.BigEndian.Uint32
computes it on a length-4 slice. -/
def be32 (b0 b1 b2 b3 : Nat) : Nat :=
  ((b0 * 256 + b1) * 256 + b2) * 256 + b3

/-- Reinterpretation of a uint32 value as a Go int32 (two-complement), as in
the source expression int32(binary.BigEndian.Uint32(sizeBuf)). -/
def toInt32 (u : Nat) : Int :=
  if u < 2 ^ 31 then (u : Int) else (u : Int) - 2 ^ 32

/-- binary.BigEndian.PutUint32: the four big-endian bytes written for a
32-bit value, used for the raw length prefix in doSasl and by the request
formatter. -/
def putUint32BE (n : Nat) : Nat × Nat × Nat × Nat :=
  (n / 2 ^ 24 % 256, n / 2 ^ 16 % 256, n / 2 ^ 8 % 256, n % 256)

/-- Decidable equality for Except results, so that concrete runs of the
embedded functions can be settled by decide. -/
instance {ε α : Type} [DecidableEq ε] [DecidableEq α] :
    DecidableEq (Except ε α) := fun a b =>
  match a, b with
  | .ok x, .ok y =>
    if h : x = y then .isTrue (by rw [h])
    else .isFalse (by intro hc; cases hc; exact h rfl)
  | .error x, .error y =>
    if h : x = y then .isTrue (by rw [h])
    else .isFalse (by intro hc; cases hc; exact h rfl)
  | .ok _, .error _ => .isFalse (by intro hc; cases hc)
  | .error _, .ok _ => .isFalse (by intro hc; cases hc)

/-- Error kinds returned by brokerCxn.parseReadSize; each constructor stands
for one distinct fmt.Errorf message in the source (negative size, the
HTTP-port hint, the TLS-endpoint hint, and the plain invalid large response
size error). -/
inductive RSizeErr
  | negativeSize
  | httpHint
  | tlsHint
  | tooLarge
deriving DecidableEq

/-- brokerCxn.parseReadSize: decode a 4-byte length prefix and enforce the
configured maxBrokerReadBytes ceiling.  The source compares maxSize (the
configured ceiling), not the decoded size, against 0x48545450 in the HTTP
branch, and fires the TLS hint when the first byte is 21 and the 16-bit
value of the next two bytes has a nonzero AND with 0x0300. -/
def parseReadSize (maxSize : Int) (b0 b1 b2 b3 : Nat) : Except RSizeErr Int :=
  let size := toInt32 (be32 b0 b1 b2 b3)
  if size < 0 then .error .negativeSize
  else if size > maxSize then
    if maxSize = 0x48545450 then .error .httpHint
    else
      let tlsVersion := b1 * 256 + b2
      if b0 = 21 ∧ tlsVersion &&& 0x0300 ≠ 0 then .error .tlsHint
      else .error .tooLarge
  else .ok size

/-- Claim C3: evaluating the code at the failing input.  With the four size
bytes spelling HTTP (48 54 54 50 hex) and a ceiling of 100 MiB, the source
returns the plain invalid-large-response error rather than the HTTP-port
hint, because it compares the configured ceiling (not the decoded size)
against 0x48545450; the last conjunct shows the branch that does fire: a
ceiling equal to 0x48545450 produces the HTTP hint for bytes that do not
spell HTTP. -/
theorem parseReadSize_http_hint_bug :
    parseReadSize 104857600 72 84 84 80 = .error .tooLarge ∧
    parseReadSize 104857600 72 84 84 80 ≠ .error .httpHint ∧
    parseReadSize 0x48545450 80 0 0 1 = .error .httpHint := by
  decide

/-- Claim C4 counterexample: the oversize prefix 15 01 00 00 (hex) makes
parseReadSize fail with the TLS hint although 0x0100 is not a TLS version in
the range 0x0300 to 0x0304, refuting the claimed exactly-when condition. -/
theorem parseReadSize_tls_range_cex :
    ¬ (parseReadSize 104857600 21 1 0 0 = .error .tlsHint ↔
        (0x0300 ≤ 1 * 256 + 0 ∧ 1 * 256 + 0 ≤ 0x0304)) := by
  decide

/-- Claim C4 (amended): for every oversize 4-byte prefix, when the ceiling
itself is not 0x48545450, parseReadSize fails with the TLS hint exactly when
the first byte is 0x15 and the 16-bit value of the next two bytes has a
nonzero bitwise AND with 0x0300; every other such oversize prefix yields the
plain invalid-large-response error. -/
theorem parseReadSize_large (maxSize : Int) (b0 b1 b2 b3 : Nat)
    (hhttp : maxSize ≠ 0x48545450)
    (hpos : 0 ≤ toInt32 (be32 b0 b1 b2 b3))
    (hbig : maxSize < toInt32 (be32 b0 b1 b2 b3)) :
    (parseReadSize maxSize b0 b1 b2 b3 = .error .tlsHint ↔
      b0 = 21 ∧ (b1 * 256 + b2) &&& 0x0300 ≠ 0) ∧
    (¬ (b0 = 21 ∧ (b1 * 256 + b2) &&& 0x0300 ≠ 0) →
      parseReadSize maxSize b0 b1 b2 b3 = .error .tooLarge) := by
  have hne : ¬ toInt32 (be32 b0 b1 b2 b3) < 0 := not_lt.mpr hpos
  by_cases htls : b0 = 21 ∧ (b1 * 256 + b2) &&& 0x0300 ≠ 0
  · obtain ⟨hb0, hmask⟩ := htls
    subst hb0
    simp [parseReadSize, hne, hbig, hhttp, hmask]
  · simp [parseReadSize, hne, hbig, hhttp, htls]

/-- Witness for parseReadSize_large: the prefix 15 03 01 00 (hex, decoding
to 352 684 288) over a 100 MiB ceiling yields the TLS hint. -/
theorem parseReadSize_large_witness :
    parseReadSize 104857600 21 3 1 0 = .error .tlsHint :=
  (parseReadSize_large 104857600 21 3 1 0 (by decide) (by decide)
    (by decide)).1.mpr (by decide)

/-- Claim C9: parseReadSize is a left inverse of the 4-byte big-endian
length-prefix encoding for every N between 0 and the configured ceiling
(itself an int32, hence below 2^31), and every prefix decoding to a negative
int32 is rejected with the negative-size error. -/
theorem parseReadSize_roundtrip :
    (∀ (maxSize : Int) (n : Nat), (n : Int) ≤ maxSize → maxSize < 2 ^ 31 →
      parseReadSize maxSize (putUint32BE n).1 (putUint32BE n).2.1
        (putUint32BE n).2.2.1 (putUint32BE n).2.2.2 = .ok (n : Int)) ∧
    (∀ (maxSize : Int) (b0 b1 b2 b3 : Nat),
      b0 < 256 → b1 < 256 → b2 < 256 → b3 < 256 →
      2 ^ 31 ≤ be32 b0 b1 b2 b3 →
      parseReadSize maxSize b0 b1 b2 b3 = .error .negativeSize) := by
  constructor
  · intro maxSize n hle hmax
    have hn31 : n < 2 ^ 31 := by omega
    have hbe : be32 (putUint32BE n).1 (putUint32BE n).2.1
        (putUint32BE n).2.2.1 (putUint32BE n).2.2.2 = n := by
      unfold putUint32BE be32
      dsimp only
      omega
    have ht : toInt32 (be32 (putUint32BE n).1 (putUint32BE n).2.1
        (putUint32BE n).2.2.1 (putUint32BE n).2.2.2) = (n : Int) := by
      rw [hbe]
      unfold toInt32
      rw [if_pos hn31]
    simp only [parseReadSize, ht]
    rw [if_neg (by omega), if_neg (by omega)]
  · intro maxSize b0 b1 b2 b3 h0 h1 h2 h3 hneg
    have hlt : be32 b0 b1 b2 b3 < 2 ^ 32 := by
      unfold be32
      omega
    have ht : toInt32 (be32 b0 b1 b2 b3) < 0 := by
      unfold toInt32
      rw [if_neg (by omega)]
      omega
    simp only [parseReadSize]
    rw [if_pos ht]

/-- Witness for parseReadSize_roundtrip: the prefix for 1024 decodes back to
1024 under a 100 MiB ceiling, and the prefix ff 00 00 00 is rejected as
negative. -/
theorem parseReadSize_roundtrip_witness :
    parseReadSize 104857600 0 0 4 0 = .ok 1024 ∧
    parseReadSize 104857600 255 0 0 0 = .error .negativeSize := by
  constructor
  · exact parseReadSize_roundtrip.1 104857600 1024 (by decide) (by decide)
  · exact parseReadSize_roundtrip.2 104857600 255 0 0 0 (by decide)
      (by decide) (by decide) (by decide) (by decide)

/-- One call of brokerCxn.writeRequest, abstracted over its two externally
determined outcomes: whether a throttle wait was interrupted (request
context cancelled, client closed, or connection death while now is before
throttleUntil), and whether the framed write on the socket succeeded. -/
structure WriteAttempt where
  throttleInterrupt : Bool
  writeConnOk : Bool
deriving DecidableEq

/-- Int32 two-complement wraparound, as Go signed integer overflow
behaves. -/
def wrap32 (x : Int) : Int := (x + 2 ^ 31) % 2 ^ 32 - 2 ^ 31

/-- brokerCxn.writeRequest, restricted to its correlation-ID behaviour: a
throttle interruption returns the error before serializing and a write
error returns after serializing, and in both cases corrID is untouched;
only on a successful write is the current corrID returned and the counter
post-incremented (an int32 increment). -/
def writeRequest (corrID : Int) (a : WriteAttempt) : Option Int × Int :=
  if a.throttleInterrupt then (none, corrID)
  else if a.writeConnOk then (some corrID, wrap32 (corrID + 1))
  else (none, corrID)

/-- The corrID field of a freshly constructed brokerCxn is the Go zero
value. -/
def initialCorrID : Int := 0

/-- Run a sequence of writeRequest calls on one connection, collecting the
correlation IDs returned by the successful calls and threading the
counter. -/
def runWrites (corrID : Int) : List WriteAttempt → List Int × Int
  | [] => ([], corrID)
  | a :: rest =>
    match writeRequest corrID a with
    | (some id, c) =>
      let r := runWrites c rest
      (id :: r.1, r.2)
    | (none, c) => runWrites c rest

/-- A writeRequest call succeeds when it is neither interrupted during the
throttle wait nor failed by the socket write. -/
def isSuccess (a : WriteAttempt) : Bool := !a.throttleInterrupt && a.writeConnOk

/-- Number of successful writeRequest calls in a sequence. -/
def successCount (l : List WriteAttempt) : Nat := (l.filter isSuccess).length

theorem runWrites_no_success (l : List WriteAttempt) : ∀ c : Int,
    successCount l = 0 → (runWrites c l).1 = [] := by
  induction l with
  | nil => intro c _; rfl
  | cons a rest ih =>
    intro c h0
    obtain ⟨ti, ok⟩ := a
    cases ti
    · cases ok
      · have h0r : successCount rest = 0 := by
          simpa [successCount, isSuccess] using h0
        simpa [runWrites, writeRequest] using ih c h0r
      · exfalso
        simp [successCount, isSuccess] at h0
    · have h0r : successCount rest = 0 := by
        simpa [successCount, isSuccess] using h0
      simpa [runWrites, writeRequest] using ih c h0r

theorem runWrites_ids (l : List WriteAttempt) : ∀ c : Int, 0 ≤ c →
    c + successCount l ≤ 2 ^ 31 →
    (runWrites c l).1 = (List.range (successCount l)).map (fun i : Nat => c + (i : Int)) := by
  induction l with
  | nil =>
    intro c _ _
    simp [runWrites, successCount]
  | cons a rest ih =>
    intro c hc hb
    obtain ⟨ti, ok⟩ := a
    cases ti
    · cases ok
      · have hsc : successCount (⟨false, false⟩ :: rest) = successCount rest := by
          simp [successCount, isSuccess]
        rw [hsc] at hb ⊢
        simpa [runWrites, writeRequest] using ih c hc hb
      · have hsc : successCount (⟨false, true⟩ :: rest) = successCount rest + 1 := by
          simp [successCount, isSuccess]
        rw [hsc] at hb ⊢
        have hrange : (List.range (successCount rest + 1)).map (fun i : Nat => c + (i : Int)) =
            c :: (List.range (successCount rest)).map (fun i : Nat => (c + 1) + (i : Int)) := by
          rw [List.range_succ_eq_map, List.map_cons, List.map_map]
          refine congrArg₂ _ (by simp) ?_
          refine List.map_congr_left (fun i _ => ?_)
          simp only [Function.comp_apply, Nat.succ_eq_add_one]
          push_cast
          ring
        rw [hrange]
        by_cases h0 : successCount rest = 0
        · have hnil := runWrites_no_success rest (wrap32 (c + 1)) h0
          simp [runWrites, writeRequest, h0, hnil]
        · have h1 : 1 ≤ successCount rest := Nat.one_le_iff_ne_zero.mpr h0
          have hw : wrap32 (c + 1) = c + 1 := by
            unfold wrap32
            omega
          have ihr := ih (c + 1) (by omega) (by omega)
          simp only [runWrites, writeRequest]
          simp only [Bool.false_eq_true, if_false, if_true, hw, ihr]
    · have hsc : successCount (⟨true, ok⟩ :: rest) = successCount rest := by
        simp [successCount, isSuccess]
      rw [hsc] at hb ⊢
      simpa [runWrites, writeRequest] using ih c hc hb

/-- Claim C1: starting from the zero corrID of a fresh connection, for any
sequence of writeRequest calls in which at most 2^31 succeed, the
correlation IDs returned by the successful calls are exactly 0, 1, 2, ...;
failed calls, whether throttle interruptions or write errors, leave the
counter untouched and consume no ID. -/
theorem writeRequest_corrID_monotonic (l : List WriteAttempt)
    (hb : successCount l ≤ 2 ^ 31) :
    (runWrites initialCorrID l).1 =
      (List.range (successCount l)).map (fun i : Nat => (i : Int)) := by
  have h := runWrites_ids l 0 le_rfl (by omega)
  simpa [initialCorrID] using h

/-- Witness for writeRequest_corrID_monotonic: three successful writes
interleaved with a throttle interruption and a failed write emit the IDs
0, 1, 2. -/
theorem writeRequest_corrID_monotonic_witness :
    (runWrites initialCorrID
      [⟨false, true⟩, ⟨true, false⟩, ⟨false, false⟩, ⟨false, true⟩,
        ⟨false, true⟩]).1 = [0, 1, 2] :=
  (writeRequest_corrID_monotonic
    [⟨false, true⟩, ⟨true, false⟩, ⟨false, false⟩, ⟨false, true⟩,
      ⟨false, true⟩] (by decide)).trans (by decide)

/-- Error kinds brokerCxn.readResponse can surface once readConn returned a
frame: kbin.ErrNotEnoughData for a short payload (also what the kbin reader
reports when the flexible tag block overruns), and the fatal correlation ID
mismatch. -/
inductive ReadRespErr
  | notEnoughData
  | correlationIDMismatch
deriving DecidableEq

/-- brokerCxn.readResponse after a successful readConn: a payload shorter
than 4 bytes is rejected with kbin.ErrNotEnoughData before any correlation
ID is inspected; otherwise the first four payload bytes are compared with
the expected corrID, and only afterwards is the flexible response header
tag block skipped (kmsg.SkipTags lives outside this file and is passed as a
parameter). -/
def readResponseMatch (skipTags : List Nat → Except ReadRespErr (List Nat))
    (corrID : Int) (flexibleHeader : Bool) :
    List Nat → Except ReadRespErr (List Nat)
  | b0 :: b1 :: b2 :: b3 :: rest =>
    if toInt32 (be32 b0 b1 b2 b3) ≠ corrID then .error .correlationIDMismatch
    else if flexibleHeader then skipTags rest
    else .ok rest
  | _ => .error .notEnoughData

/-- Claim C10: for every successfully read frame whose payload is shorter
than 4 bytes, readResponse returns the not-enough-data error and not the
correlation-ID mismatch; the mismatch error can only arise on a payload of
at least 4 bytes. -/
theorem readResponse_short_payload
    (skipTags : List Nat → Except ReadRespErr (List Nat))
    (corrID : Int) (flexibleHeader : Bool) :
    (∀ buf : List Nat, buf.length < 4 →
      readResponseMatch skipTags corrID flexibleHeader buf = .error .notEnoughData) ∧
    (∀ buf : List Nat,
      readResponseMatch skipTags corrID flexibleHeader buf =
        .error .correlationIDMismatch → 4 ≤ buf.length) := by
  constructor
  · intro buf hlen
    match buf, hlen with
    | [], _ => rfl
    | [_], _ => rfl
    | [_, _], _ => rfl
    | [_, _, _], _ => rfl
  · intro buf hmis
    match buf, hmis with
    | b0 :: b1 :: b2 :: b3 :: rest, _ => simp
    | [], hmis => exact absurd hmis (by simp [readResponseMatch])
    | [_], hmis => exact absurd hmis (by simp [readResponseMatch])
    | [_, _], hmis => exact absurd hmis (by simp [readResponseMatch])
    | [_, _, _], hmis => exact absurd hmis (by simp [readResponseMatch])

/-- Witness for readResponse_short_payload: a 3-byte payload yields the
not-enough-data error. -/
theorem readResponse_short_payload_witness :
    readResponseMatch (fun p => .ok p) 0 false [0, 0, 1] = .error .notEnoughData :=
  (readResponse_short_payload (fun p => .ok p) 0 false).1
    [0, 0, 1] (by decide)

/-- Outcome of one inspection round of the raw ApiVersions response inside
brokerCxn.requestAPIVersions. -/
inductive ApiVersionsAction
  | failedShortResponse
  | failedUnsupportedV0
  | retryAtV0
  | decodeNormally (respVersion : Int)
deriving DecidableEq

/-- brokerCxn.requestAPIVersions, the inspection of the raw response of one
negotiation round issued at version maxVersion: a response shorter than 2
bytes fails; if byte offset 1 is 35 (UNSUPPORTED_VERSION) then a request
already at version 0 fails outright, the exact 6-byte v0 reply or the exact
10-byte Azure EventHubs reply triggers a retry at version 0, and any other
such response is decoded with the response version forced to 0; otherwise
the response is decoded at the version it carries. -/
def requestAPIVersionsCheck (maxVersion : Int) (rawResp : List Nat) :
    ApiVersionsAction :=
  match rawResp with
  | _ :: b1 :: _ =>
    if b1 = 35 then
      if maxVersion = 0 then .failedUnsupportedV0
      else if rawResp = [0x00, 0x23, 0x00, 0x00, 0x00, 0x00] ∨
          rawResp = [0x00, 0x23, 0x00, 0x00, 0x00, 0x00, 0x00, 0x00, 0x00, 0x00] then
        .retryAtV0
      else .decodeNormally 0
    else .decodeNormally maxVersion
  | _ => .failedShortResponse

/-- Claim C5: when byte offset 1 of the raw ApiVersions response is 35
(UNSUPPORTED_VERSION) and the raw bytes equal the exact 6-byte v0 reply or
the 10-byte Azure EventHubs variant, a request not already at version 0 is
retried at version 0; a request already at version 0 receiving an
UNSUPPORTED_VERSION byte fails the negotiation. -/
theorem apiVersions_downgrade (maxVersion : Int) (raw : List Nat)
    (h35 : raw[1]? = some 35) :
    ((raw = [0x00, 0x23, 0x00, 0x00, 0x00, 0x00] ∨
        raw = [0x00, 0x23, 0x00, 0x00, 0x00, 0x00, 0x00, 0x00, 0x00, 0x00]) →
      maxVersion ≠ 0 →
      requestAPIVersionsCheck maxVersion raw = .retryAtV0) ∧
    requestAPIVersionsCheck 0 raw = .failedUnsupportedV0 := by
  rcases raw with _ | ⟨b0, raw1⟩
  · simp at h35
  rcases raw1 with _ | ⟨b1, rest⟩
  · simp at h35
  have hb1 : b1 = 35 := by simpa using h35
  subst hb1
  constructor
  · intro hp hm
    rcases hp with hp | hp <;> rw [hp] <;> simp [requestAPIVersionsCheck, hm]
  · simp [requestAPIVersionsCheck]

/-- Witness for apiVersions_downgrade: the 6-byte v0 reply to a version-3
request triggers the retry, and the same bytes at version 0 fail. -/
theorem apiVersions_downgrade_witness :
    requestAPIVersionsCheck 3 [0, 35, 0, 0, 0, 0] = .retryAtV0 ∧
    requestAPIVersionsCheck 0 [0, 35, 0, 0, 0, 0] = .failedUnsupportedV0 :=
  ⟨(apiVersions_downgrade 3 [0, 35, 0, 0, 0, 0] (by decide)).1 (Or.inl rfl)
      (by decide),
    (apiVersions_downgrade 0 [0, 35, 0, 0, 0, 0] (by decide)).2⟩

/-- A kversion.Versions configuration (maxVersions or minVersions of the
client config), seen through the two queries broker.handleReq performs. -/
structure KVersions where
  hasKey : Int → Bool
  lookupMaxKeyVersion : Int → Int × Bool

/-- Outcome of the key and version checking block of broker.handleReq; an
out-of-bounds index into the versions array is a Go runtime panic. -/
inductive VersionCheckOutcome
  | unknownRequestKey
  | brokerTooOld
  | panicOutOfRange
  | ok (version : Int)
deriving DecidableEq

/-- Indexing the brokerVersions array with a Go int key: a negative or
too-large index is out of bounds. -/
def vIndex (versions : List Int) (key : Int) : Option Int :=
  if key < 0 then none else versions[key.toNat]?

/-- The maxVersions part of the errUnknownRequestKey guard: true when a
maxVersions config exists and does not contain the key. -/
def keyExcluded (maxVersions : Option KVersions) (key : Int) : Bool :=
  match maxVersions with
  | none => false
  | some mv => !(mv.hasKey key)

/-- The version selection of broker.handleReq once the key guard and the
loaded-versions check passed: cap the request max by the user max, read the
broker max by indexing the versions array with the request key, downgrade
when the broker max is known and lower, and fail with errBrokerTooOld when
a configured minimum exceeds the result. -/
def chooseVersion (versions : List Int) (maxVersions minVersions : Option KVersions)
    (key reqMaxVersion : Int) : VersionCheckOutcome :=
  let ourMax :=
    match maxVersions with
    | some mv =>
      let userMax := (mv.lookupMaxKeyVersion key).1
      if userMax < reqMaxVersion then userMax else reqMaxVersion
    | none => reqMaxVersion
  match vIndex versions key with
  | none => .panicOutOfRange
  | some brokerMax =>
    let version := if 0 ≤ brokerMax ∧ brokerMax < ourMax then brokerMax else ourMax
    match minVersions with
    | some mv =>
      let mk := mv.lookupMaxKeyVersion key
      if mk.2 ∧ version < mk.1 then .brokerTooOld else .ok version
    | none => .ok version

/-- The key and version checking block of broker.handleReq, from the
errUnknownRequestKey guard through req.SetVersion.  The guard compares the
key against v.len() (the array length, MaxKey + 1) with a strict
greater-than, and the later reads of versions[key] index the array
directly; the errBrokerTooOld test short-circuits exactly as the Go &&
does. -/
def handleReqVersionCheck (versions : List Int)
    (maxVersions minVersions : Option KVersions) (key reqMaxVersion : Int) :
    VersionCheckOutcome :=
  if (versions.length : Int) < key ∨ keyExcluded maxVersions key = true then
    .unknownRequestKey
  else
    match versions[0]? with
    | none => .panicOutOfRange
    | some v0 =>
      if 0 ≤ v0 then
        match vIndex versions key with
        | none => .panicOutOfRange
        | some vk =>
          if vk < 0 then .brokerTooOld
          else chooseVersion versions maxVersions minVersions key reqMaxVersion
      else chooseVersion versions maxVersions minVersions key reqMaxVersion

theorem chooseVersion_ne_unknown (versions : List Int)
    (maxV minV : Option KVersions) (key reqMax : Int) :
    chooseVersion versions maxV minV key reqMax ≠ .unknownRequestKey := by
  rcases maxV with _ | mv <;>
    rcases minV with _ | mv2 <;>
      rcases hvi : vIndex versions key with _ | brokerMax <;>
        simp only [chooseVersion, hvi] <;>
          (try split_ifs) <;> simp

/-- Claim C2 counterexample: a request key equal to MaxKey + 1 (here with
MaxKey = 67, the table having 68 slots) passes the errUnknownRequestKey
guard, because the guard tests key > v.len() rather than key >= v.len(), and
the subsequent versions[key] read is out of bounds. -/
theorem handleReq_key_cex :
    handleReqVersionCheck (List.replicate 68 (-1)) none none 68 7 =
      .panicOutOfRange ∧
    handleReqVersionCheck (List.replicate 68 (-1)) none none 68 7 ≠
      .unknownRequestKey := by
  decide

/-- Claim C2 (amended): handleReq fails a request with errUnknownRequestKey
exactly when its key strictly exceeds the versions-table length (MaxKey + 1)
or the maxVersions config excludes the key; a key equal to the table length,
or a negative key, that is not excluded passes the guard and leads to an
out-of-bounds read of the versions table instead. -/
theorem handleReq_key_guard (versions : List Int)
    (maxV minV : Option KVersions) (key reqMax : Int) :
    (handleReqVersionCheck versions maxV minV key reqMax = .unknownRequestKey ↔
      ((versions.length : Int) < key ∨ keyExcluded maxV key = true)) ∧
    ((key = (versions.length : Int) ∨ key < 0) → keyExcluded maxV key = false →
      handleReqVersionCheck versions maxV minV key reqMax = .panicOutOfRange) := by
  constructor
  · constructor
    · intro h
      by_contra hg
      unfold handleReqVersionCheck at h
      rw [if_neg hg] at h
      rcases h0 : versions[0]? with _ | v0 <;> simp only [h0] at h
      · simp at h
      · by_cases hv0 : 0 ≤ v0
        · rw [if_pos hv0] at h
          rcases hvi : vIndex versions key with _ | vk <;> simp only [hvi] at h
          · simp at h
          · by_cases hvk : vk < 0
            · rw [if_pos hvk] at h
              simp at h
            · rw [if_neg hvk] at h
              exact chooseVersion_ne_unknown versions maxV minV key reqMax h
        · rw [if_neg hv0] at h
          exact chooseVersion_ne_unknown versions maxV minV key reqMax h
    · intro hg
      unfold handleReqVersionCheck
      rw [if_pos hg]
  · intro hk hex
    have hg : ¬ ((versions.length : Int) < key ∨ keyExcluded maxV key = true) := by
      intro hc
      rcases hc with hc | hc
      · rcases hk with hk | hk <;> omega
      · rw [hex] at hc
        cases hc
    have hvi : vIndex versions key = none := by
      unfold vIndex
      rcases hk with hk | hk
      · rw [if_neg (by omega)]
        apply List.getElem?_eq_none
        omega
      · rw [if_pos hk]
    unfold handleReqVersionCheck
    rw [if_neg hg]
    rcases h0 : versions[0]? with _ | v0 <;> simp only [h0]
    by_cases hv0 : 0 ≤ v0
    · rw [if_pos hv0]
      simp only [hvi]
    · rw [if_neg hv0]
      rcases maxV with _ | mv <;>
        rcases minV with _ | mv2 <;>
          simp only [chooseVersion, hvi]

/-- Witness for handleReq_key_guard: a key equal to the table length indexes
out of bounds. -/
theorem handleReq_key_guard_witness :
    handleReqVersionCheck [5, 3] none none 2 7 = .panicOutOfRange :=
  (handleReq_key_guard [5, 3] none none 2 7).2 (Or.inl (by decide)) (by decide)

/-- Result of the SASL reauthentication loop at the top of
broker.handleReq: the loop exits normally, fails the request with
errSaslReauthLoop, or fails it with the sasl error itself. -/
inductive ReauthResult
  | proceed
  | failedSaslReauthLoop
  | failedSaslError
deriving DecidableEq

/-- Observable trace of one run of the reauthentication loop: how the
promise is settled, how many cxn.sasl calls were made, and whether
cxn.die was called. -/
structure ReauthOutcome where
  result : ReauthResult
  saslAttempts : Nat
  died : Bool
deriving DecidableEq

/-- The reauthentication for-loop of broker.handleReq, entered with counter
value r (the source initializes reauthentications to 1): expired k tells
whether the loop condition (expiry non-zero and now after expiry) holds at
its k-th evaluation, and saslOk k whether the k-th cxn.sasl call succeeds.
A counter above 15 fails the request with errSaslReauthLoop and kills the
connection before any further sasl call; a sasl error also kills the
connection and fails the request. -/
def reauthLoop (expired saslOk : Nat → Bool) (r : Nat) : ReauthOutcome :=
  if he : expired r = false then ⟨.proceed, 0, false⟩
  else if hr : 15 < r then ⟨.failedSaslReauthLoop, 0, true⟩
  else if hs : saslOk r = false then ⟨.failedSaslError, 1, true⟩
  else
    let rest := reauthLoop expired saslOk (r + 1)
    ⟨rest.result, rest.saslAttempts + 1, rest.died⟩
termination_by 16 - r
decreasing_by omega

theorem reauthLoop_attempts (expired saslOk : Nat → Bool) :
    ∀ (n r : Nat), 16 ≤ r + n →
      (reauthLoop expired saslOk r).saslAttempts ≤ 16 - r := by
  intro n
  induction n with
  | zero =>
    intro r h
    rw [reauthLoop]
    rcases he : expired r with _ | _
    · simp [he]
    · simp [he, show 15 < r by omega]
  | succ n ih =>
    intro r h
    rw [reauthLoop]
    rcases he : expired r with _ | _
    · simp [he]
    · by_cases hr : 15 < r
      · simp [he, hr]
      · rcases hs : saslOk r with _ | _
        · simp [he, hr, hs]
          omega
        · have := ih (r + 1) (by omega)
          simp [he, hr, hs]
          omega

theorem reauthLoop_all_expired (expired saslOk : Nat → Bool)
    (hexp : ∀ k, 1 ≤ k → k ≤ 16 → expired k = true)
    (hok : ∀ k, 1 ≤ k → k ≤ 15 → saslOk k = true) :
    ∀ (n r : Nat), 1 ≤ r → r + n = 16 →
      (reauthLoop expired saslOk r).result = .failedSaslReauthLoop ∧
      (reauthLoop expired saslOk r).died = true := by
  intro n
  induction n with
  | zero =>
    intro r h1 h16
    rw [reauthLoop]
    simp [hexp r (by omega) (by omega), show 15 < r by omega]
  | succ n ih =>
    intro r h1 h16
    rw [reauthLoop]
    simp [hexp r (by omega) (by omega), show ¬ 15 < r by omega,
      hok r (by omega) (by omega)]
    exact ih (r + 1) (by omega) (by omega)

/-- Claim C7: one dispatch performs at most 15 sasl reauthentication
attempts; when the expiry is still elapsed at every check and the first 15
reauthentications succeed without clearing it, the 16th iteration fails the
request with errSaslReauthLoop and kills the connection. -/
theorem reauth_bound (expired saslOk : Nat → Bool) :
    (reauthLoop expired saslOk 1).saslAttempts ≤ 15 ∧
    ((∀ k, 1 ≤ k → k ≤ 16 → expired k = true) →
      (∀ k, 1 ≤ k → k ≤ 15 → saslOk k = true) →
      (reauthLoop expired saslOk 1).result = .failedSaslReauthLoop ∧
      (reauthLoop expired saslOk 1).died = true) := by
  constructor
  · exact reauthLoop_attempts expired saslOk 15 1 (by omega)
  · intro hexp hok
    exact reauthLoop_all_expired expired saslOk hexp hok 15 1 (by omega) (by omega)

/-- Witness for reauth_bound: with an expiry that never clears and sasl
always succeeding, the dispatch makes at most 15 attempts and fails with
errSaslReauthLoop. -/
theorem reauth_bound_witness :
    (reauthLoop (fun _ => true) (fun _ => true) 1).saslAttempts ≤ 15 ∧
    (reauthLoop (fun _ => true) (fun _ => true) 1).result =
      .failedSaslReauthLoop :=
  ⟨(reauth_bound (fun _ => true) (fun _ => true)).1,
    ((reauth_bound (fun _ => true) (fun _ => true)).2
      (fun _ _ _ => rfl) (fun _ _ _ => rfl)).1⟩

/-- Result of the session-lifetime epilogue of brokerCxn.doSasl: the
recorded expiry timestamp (none when no positive lifetime was returned, so
the zero expiry means no reauth) and whether the 100 ms anti-spin sleep
runs. -/
structure SaslLifetimeResult where
  expiryMs : Option Int
  sleeps : Bool
deriving DecidableEq

/-- The session-lifetime epilogue of brokerCxn.doSasl, timestamps in
milliseconds: latency11 is the already-scaled int64(float64(e2e_ms) * 1.1)
of the final request (the scaling itself happens in floating point in the
source and its result is taken as an input here), and nowMs is the
time.Now() read after the challenge loop finished.  A positive lifetime
clamps the latency below by 2500, records the expiry at nowMs plus the
remaining lifetime, and sleeps 100 ms when that remainder is negative. -/
def doSaslLifetime (lifetimeMillis latency11 nowMs : Int) : SaslLifetimeResult :=
  if 0 < lifetimeMillis then
    let latency := if latency11 < 2500 then 2500 else latency11
    let useLifetime := lifetimeMillis - latency
    ⟨some (nowMs + useLifetime), decide (useLifetime < 0)⟩
  else ⟨none, false⟩

/-- Claim C6 counterexample: with the prereq timestamp at 0 ms, the
challenge loop ending at nowMs = 1000 (a final e2e latency of 1000 ms,
scaled to 1100), and a session lifetime of 10000 ms, the claim predicts an
expiry of prereq + 10000 - max(1100, 2500) = 7500, but the source anchors
the expiry at the time.Now() taken after the loop: 1000 + 10000 - 2500 =
8500. -/
theorem doSaslLifetime_prereq_cex :
    (doSaslLifetime 10000 1100 1000).expiryMs = some 8500 ∧
    (doSaslLifetime 10000 1100 1000).expiryMs ≠
      some (0 + (10000 - max 1100 2500)) := by
  decide

/-- Claim C6 (amended): when the final SASLAuthenticate response carries a
positive session lifetime, the recorded expiry equals the time.Now()
timestamp taken after the challenge loop (not the pre-request timestamp)
plus the lifetime minus max(latency11, 2500), where latency11 is the
1.1-scaled final-request e2e latency; the 100 ms sleep happens exactly when
the remaining lifetime is negative. -/
theorem doSaslLifetime_expiry (lifetimeMillis latency11 nowMs : Int)
    (hpos : 0 < lifetimeMillis) :
    (doSaslLifetime lifetimeMillis latency11 nowMs).expiryMs =
      some (nowMs + lifetimeMillis - max latency11 2500) ∧
    ((doSaslLifetime lifetimeMillis latency11 nowMs).sleeps = true ↔
      lifetimeMillis < max latency11 2500) := by
  have hm : (if latency11 < 2500 then (2500 : Int) else latency11) =
      max latency11 2500 := by
    rcases le_or_lt 2500 latency11 with h | h
    · rw [if_neg (not_lt.mpr h), max_eq_left h]
    · rw [if_pos h, max_eq_right h.le]
  unfold doSaslLifetime
  rw [if_pos hpos]
  dsimp only
  rw [hm]
  constructor
  · exact congrArg some (by ring)
  · rw [decide_eq_true_eq]
    omega

/-- Witness for doSaslLifetime_expiry: a 1000 ms lifetime with a small
final-request latency records an expiry 1500 ms before now and sleeps. -/
theorem doSaslLifetime_expiry_witness :
    (doSaslLifetime 1000 100 5000).expiryMs =
      some (5000 + 1000 - max 100 2500) ∧
    ((doSaslLifetime 1000 100 5000).sleeps = true ↔ (1000 : Int) < max 100 2500) :=
  doSaslLifetime_expiry 1000 100 5000 (by decide)

/-- The empty produce response shell prepared for an acks-0
kmsg.ProduceRequest: kmsg.NewPtrProduceResponse with the request version
copied in. -/
structure ProduceShell where
  version : Int
deriving DecidableEq

/-- The request shapes broker.handleReq distinguishes when rewriting
produce settings: the clients internal produceRequest (carrying its own
acks), a user-issued kmsg.ProduceRequest, and every other request. -/
inductive DispatchReq
  | internalProduce (acks version : Int)
  | kmsgProduce (acks timeoutMillis version : Int)
  | other
deriving DecidableEq

/-- What the produce special-casing decided: the possibly rewritten
request, the isNoResp flag, and the prepared response shell (noResp, which
stays nil for the internal produceRequest). -/
structure DispatchDecision where
  req : DispatchReq
  isNoResp : Bool
  noResp : Option ProduceShell
deriving DecidableEq

/-- The produce special-casing of broker.handleReq just before
writeRequest: for the internal produceRequest, isNoResp is its own acks ==
0 and no response shell is prepared; for a kmsg.ProduceRequest the acks are
rewritten to the configured value, the timeout is rewritten to the
configured produce timeout when that value is 0, and a non-nil empty
response shell carrying the request version is prepared; other requests are
untouched. -/
def prepareDispatch (cfgAcks produceTimeoutMillis : Int) :
    DispatchReq → DispatchDecision
  | .internalProduce acks version =>
    ⟨.internalProduce acks version, decide (acks = 0), none⟩
  | .kmsgProduce _ timeoutMillis version =>
    if cfgAcks = 0 then
      ⟨.kmsgProduce cfgAcks produceTimeoutMillis version, true, some ⟨version⟩⟩
    else ⟨.kmsgProduce cfgAcks timeoutMillis version, false, some ⟨version⟩⟩
  | .other => ⟨.other, false, none⟩

/-- After a successful writeRequest, broker.handleReq either fulfills the
promise immediately with the prepared shell (isNoResp) or enqueues a
PendingResponse on the connection via waitResp. -/
inductive AfterWrite
  | fulfilledWith (resp : Option ProduceShell)
  | enqueuedPending
deriving DecidableEq

/-- The post-write branch of broker.handleReq on a successful write. -/
def afterSuccessfulWrite (d : DispatchDecision) : AfterWrite :=
  if d.isNoResp then .fulfilledWith d.noResp else .enqueuedPending

/-- Claim C8 counterexample: the clients internal produce request,
dispatched with configured acks 0 and its own acks 0, has its promise
fulfilled immediately with a nil response rather than with a non-nil empty
produce response. -/
theorem produce_acks0_cex :
    afterSuccessfulWrite (prepareDispatch 0 30000 (.internalProduce 0 7)) =
      .fulfilledWith none ∧
    afterSuccessfulWrite (prepareDispatch 0 30000 (.internalProduce 0 7)) ≠
      .fulfilledWith (some ⟨7⟩) := by
  decide

/-- Claim C8 (amended): with configured acks 0, a kmsg.ProduceRequest is
rewritten to the configured acks and produce timeout and its promise is
fulfilled immediately after a successful write with a non-nil empty produce
response, with no PendingResponse enqueued; the internal produceRequest
with its own acks 0 is likewise fulfilled immediately but with a nil
response; every other successfully written request (including produce
requests when the effective acks is nonzero) enqueues a PendingResponse. -/
theorem produce_acks0_amended (produceTimeoutMillis : Int) :
    (∀ acks t v : Int,
      prepareDispatch 0 produceTimeoutMillis (.kmsgProduce acks t v) =
        ⟨.kmsgProduce 0 produceTimeoutMillis v, true, some ⟨v⟩⟩ ∧
      afterSuccessfulWrite
          (prepareDispatch 0 produceTimeoutMillis (.kmsgProduce acks t v)) =
        .fulfilledWith (some ⟨v⟩)) ∧
    (∀ acks v : Int,
      afterSuccessfulWrite
          (prepareDispatch 0 produceTimeoutMillis (.internalProduce acks v)) =
        if acks = 0 then .fulfilledWith none else .enqueuedPending) ∧
    (∀ cfgAcks : Int,
      afterSuccessfulWrite (prepareDispatch cfgAcks produceTimeoutMillis .other) =
        .enqueuedPending) ∧
    (∀ acks t v cfgAcks : Int, cfgAcks ≠ 0 →
      afterSuccessfulWrite
          (prepareDispatch cfgAcks produceTimeoutMillis (.kmsgProduce acks t v)) =
        .enqueuedPending) := by
  refine ⟨fun acks t v => ⟨?_, ?_⟩, fun acks v => ?_, fun cfgAcks => ?_,
    fun acks t v cfgAcks hne => ?_⟩
  · simp [prepareDispatch]
  · simp [prepareDispatch, afterSuccessfulWrite]
  · by_cases h : acks = 0 <;> simp [prepareDispatch, afterSuccessfulWrite, h]
  · simp [prepareDispatch, afterSuccessfulWrite]
  · simp [prepareDispatch, afterSuccessfulWrite, hne]

/-- Witness for produce_acks0_amended: a kmsg.ProduceRequest with acks 1 in
its body, sent while the config says acks 0, is rewritten and fulfilled
immediately; the same request under config acks 1 enqueues a
PendingResponse. -/
theorem produce_acks0_amended_witness :
    afterSuccessfulWrite (prepareDispatch 0 30000 (.kmsgProduce 1 5000 9)) =
      .fulfilledWith (some ⟨9⟩) ∧
    afterSuccessfulWrite (prepareDispatch 1 30000 (.kmsgProduce 1 5000 9)) =
      .enqueuedPending :=
  ⟨((produce_acks0_amended 30000).1 1 5000 9).2,
    (produce_acks0_amended 30000).2.2.2 1 5000 9 1 (by decide)⟩
